import Mathlib

/-!
Verification of the fuzzy air-quality engine in `sa/fuzzy_system.py`
(class `FuzzyAirQualitySystem`).  The numeric code is embedded over `ℚ`:
the Python floats are modelled as exact rationals, machine rounding aside,
and the statements proved are about the exact piecewise-rational formulas
the source computes.  Fallible steps (the scikit-fuzzy simulation, the
sklearn-based metric computation) are modelled as explicit `Option`-valued
parameters: `none` stands for the step raising an exception, which the
source catches.
-/

namespace AirQuality

/-- Local triangular membership helper defined (identically) inside
`calculate_co_membership`, `calculate_no2_membership` and
`calculate_o3_membership`: zero at and outside `[a, c]`, the rising ramp on
`(a, b)`, the falling ramp on `[b, c)`, with each slope's division guarded
against a zero denominator. -/
def trimf (x a b c : ℚ) : ℚ :=
  if x ≤ a ∨ c ≤ x then 0
  else if a < x ∧ x < b then (if b - a ≠ 0 then (x - a) / (b - a) else 0)
  else if c - b ≠ 0 then (c - x) / (c - b) else 0

/-- Local trapezoidal membership helper defined inside
`calculate_co_membership`. -/
def trapmf (x a b c d : ℚ) : ℚ :=
  if x ≤ a ∨ d ≤ x then 0
  else if a < x ∧ x < b then (if b - a ≠ 0 then (x - a) / (b - a) else 0)
  else if b ≤ x ∧ x ≤ c then 1
  else if d - c ≠ 0 then (d - x) / (d - c) else 0

/-- Local decreasing-ramp helper `trap_left` defined inside
`calculate_no2_membership`: 1 up to `a`, 0 from `b` on, linear between. -/
def trap_left (x a b : ℚ) : ℚ :=
  if x ≤ a then 1
  else if b ≤ x then 0
  else if b - a ≠ 0 then (b - x) / (b - a) else 0

/-- Local increasing-ramp helper `ramp_right` defined inside
`calculate_no2_membership`: 0 up to `a`, 1 from `b` on, linear between. -/
def ramp_right (x a b : ℚ) : ℚ :=
  if x ≤ a then 0
  else if b ≤ x then 1
  else if b - a ≠ 0 then (x - a) / (b - a) else 0

/-- Local increasing-ramp helper `trap_right` defined inside
`calculate_o3_membership`; its body coincides with `ramp_right`. -/
def trap_right (x a b : ℚ) : ℚ :=
  if x ≤ a then 0
  else if b ≤ x then 1
  else if b - a ≠ 0 then (x - a) / (b - a) else 0

/-- Membership map returned by `calculate_co_membership` (dict keys as
fields). -/
structure CoMF where
  Very_Low : ℚ
  Low : ℚ
  Moderate : ℚ
  High : ℚ
  Very_High : ℚ
deriving DecidableEq

/-- Membership map returned by `calculate_no2_membership`. -/
structure No2MF where
  Excellent : ℚ
  Good : ℚ
  Fair : ℚ
  Poor : ℚ
  Hazardous : ℚ
deriving DecidableEq

/-- Membership map returned by `calculate_o3_membership`. -/
structure O3MF where
  Good : ℚ
  Moderate : ℚ
  Unhealthy : ℚ
  Very_Unhealthy : ℚ
deriving DecidableEq

/-- `calculate_co_membership`: the input is first clamped to the CO
universe `[0, 20]`, then each term's shape is evaluated. -/
def calculate_co_membership (co : ℚ) : CoMF :=
  let co := max 0 (min co 20)
  { Very_Low := trimf co 0 0 2
    Low := trimf co 1 2.5 4
    Moderate := trimf co 3 5 7
    High := trimf co 6 9 12
    Very_High := trapmf co 10 15 20 20 }

/-- `calculate_no2_membership`: the input is clamped to `[0, 400]`. -/
def calculate_no2_membership (no2 : ℚ) : No2MF :=
  let no2 := max 0 (min no2 400)
  { Excellent := trap_left no2 0 50
    Good := trimf no2 50 100 150
    Fair := trimf no2 125 200 275
    Poor := trimf no2 225 300 375
    Hazardous := ramp_right no2 350 400 }

/-- `calculate_o3_membership`: the input is clamped to `[0, 3000]`; the
`Good` term is written inline in the source as
`max(0.0, 1.0 - o3 / 1000.0) if o3 <= 1000.0 else 0.0`. -/
def calculate_o3_membership (o3 : ℚ) : O3MF :=
  let o3 := max 0 (min o3 3000)
  { Good := if o3 ≤ 1000 then max 0 (1 - o3 / 1000) else 0
    Moderate := trimf o3 1000 1500 2000
    Unhealthy := trimf o3 1750 2250 2750
    Very_Unhealthy := trap_right o3 2500 3000 }

/-- `calculate_fuzzy_aqi`: weighted average of the fired membership values.
The source's `weights` dict literal repeats the keys `Good` (30, then 10)
and `Moderate` (50 twice); in a Python dict literal the last occurrence
wins, so `Good` is looked up as 10 for the NO2 term as well as the O3 term.
Terms with value 0 are skipped by the `if value > 0` guard (they would
contribute nothing anyway), and when no term fired the result defaults to
50 before the final clamp to `[0, 100]`. -/
def calculate_fuzzy_aqi (co_mf : CoMF) (no2_mf : No2MF) (o3_mf : O3MF) : ℚ :=
  let items : List (ℚ × ℚ) :=
    [ (co_mf.Very_Low, 10), (co_mf.Low, 30), (co_mf.Moderate, 50),
      (co_mf.High, 75), (co_mf.Very_High, 100),
      (no2_mf.Excellent, 10), (no2_mf.Good, 10), (no2_mf.Fair, 55),
      (no2_mf.Poor, 80), (no2_mf.Hazardous, 100),
      (o3_mf.Good, 10), (o3_mf.Moderate, 50), (o3_mf.Unhealthy, 85),
      (o3_mf.Very_Unhealthy, 100) ]
  let fired := items.filter (fun p => decide (0 < p.1))
  let weighted_sum := (fired.map (fun p => p.1 * p.2)).sum
  let total_weight := (fired.map (fun p => p.1)).sum
  let aqi := if 0 < total_weight then weighted_sum / total_weight else 50
  min 100 (max 0 aqi)

/-- `calculate_crisp_aqi`: fixed-band scoring of the three pollutants,
converted by `100 - score` and clamped to `[0, 100]`. -/
def calculate_crisp_aqi (co no2 o3 : ℚ) : ℚ :=
  let s1 : ℚ := if co < 1 then 40 else if co < 3 then 30
    else if co < 5 then 20 else if co < 7 then 10 else 0
  let s2 : ℚ := if no2 < 50 then 35 else if no2 < 100 then 25
    else if no2 < 150 then 15 else if no2 < 200 then 5 else 0
  let s3 : ℚ := if o3 < 50 then 25 else if o3 < 100 then 15
    else if o3 < 150 then 5 else 0
  let score := s1 + s2 + s3
  let aqi := 100 - score / 100 * 100
  max 0 (min aqi 100)

/-- `get_category`: the category scale used by `simple_assess`. -/
def get_category (aqi : ℚ) : String :=
  if aqi ≤ 25 then "Excellent"
  else if aqi ≤ 50 then "Good"
  else if aqi ≤ 75 then "Fair"
  else if aqi ≤ 90 then "Poor"
  else "Very Poor"

/-- `aqi_to_category`: the EPA-style category scale used by
`comprehensive_assess`. -/
def aqi_to_category (aqi : ℚ) : String :=
  if aqi ≤ 50 then "Good"
  else if aqi ≤ 100 then "Moderate"
  else if aqi ≤ 150 then "Unhealthy_Sensitive"
  else if aqi ≤ 200 then "Unhealthy"
  else if aqi ≤ 300 then "Very_Unhealthy"
  else "Hazardous"

/-- Result dictionary of an assessment.  `comprehensive_assess` and
`simple_assess` return dicts with different key sets, so keys present in
only one of them are `Option` fields (`none` models key absence): the
comprehensive dict carries `epa_aqi`, `confidence` and `inputs`; the simple
dict carries `crisp_aqi` and `membership` and no confidence key. -/
structure AssessResult where
  success : Bool
  fuzzy_aqi : ℚ
  category : String
  confidence : Option ℚ
  epa_aqi : Option ℚ
  crisp_aqi : Option ℚ
  membership : Option (CoMF × No2MF × O3MF)
  inputs : Option (ℚ × ℚ × ℚ × ℚ × ℚ)
deriving DecidableEq

/-- `simple_assess`: the backward-compatibility path, also used as the
fallback of `comprehensive_assess`.  O3 is rescaled by 10 when above 100;
the returned dict has `success=True`, no confidence key and no epa key. -/
def simple_assess (co no2 o3 : ℚ) : AssessResult :=
  let o3_normalized := if 100 < o3 then o3 / 10 else o3
  let co_membership := calculate_co_membership co
  let no2_membership := calculate_no2_membership no2
  let o3_membership := calculate_o3_membership o3_normalized
  let fuzzy_aqi := calculate_fuzzy_aqi co_membership no2_membership o3_membership
  let crisp_aqi := calculate_crisp_aqi co no2 o3_normalized
  { success := true
    fuzzy_aqi := fuzzy_aqi
    category := get_category fuzzy_aqi
    confidence := none
    epa_aqi := none
    crisp_aqi := some crisp_aqi
    membership := some (co_membership, no2_membership, o3_membership)
    inputs := none }

/-- `calculate_confidence`: the loop reads, for every rule of
`self.rules`, the attribute `rule.antecedent.membership_value`.  In
scikit-fuzzy this attribute is a `StatePerSimulation` accessor object —
never `None` and never a number — so the `is not None` test keeps one
opaque object per rule (modelled as `Unit`).  When the collected list is
non-empty, `np.mean` over these non-numeric objects raises a `TypeError`,
which the surrounding bare `except` turns into the fixed 0.8; when it is
empty (a system without rules), the `if activations:` test fails and 0.8
is returned directly.  The numeric-mean branch of the source is therefore
unreachable: the function never sees a firing strength. -/
def calculate_confidence (rules : List Unit) : ℚ :=
  let activations := rules.filter (fun _ => true)
  match activations with
  | _ :: _ => 0.8
  | [] => 0.8

/-- The rule base built by `build_rule_base`: ten rules.  Only their
count is observable through `calculate_confidence`, whose per-rule reads
are opaque state objects. -/
def system_rules : List Unit := List.replicate 10 ()

/-- Outcome of one `aqi_sim.compute()` call of the scikit-fuzzy simulation
for given inputs: `some aqi` when the toolkit produces a defuzzified
output, and `none` when anything in the simulation raises (the `try` of
`comprehensive_assess` catches every exception; the simulation clips
inputs to the universe bounds, so for this rule base the failure case is
defensive). -/
def Oracle : Type := ℚ → ℚ → ℚ → ℚ → ℚ → Option ℚ

/-- `comprehensive_assess`: runs the full fuzzy simulation inside a
`try`; on success it builds the comprehensive result dict (including the
crisp comparison value `calculate_crisp_aqi(co, no2, o3/10)` and the
confidence computed over the fixed rule base), and on any exception it
falls back to `simple_assess(co, no2, o3)`. -/
def comprehensive_assess (oracle : Oracle) (co no2 o3 temp humidity : ℚ) :
    AssessResult :=
  match oracle co no2 o3 temp humidity with
  | some fuzzy_aqi =>
    { success := true
      fuzzy_aqi := fuzzy_aqi
      category := aqi_to_category fuzzy_aqi
      confidence := some (calculate_confidence system_rules)
      epa_aqi := some (calculate_crisp_aqi co no2 (o3 / 10))
      crisp_aqi := none
      membership := none
      inputs := some (co, no2, o3, temp, humidity) }
  | none => simple_assess co no2 o3

/-- `calculate_epa_aqi`: crisp batch baseline, per-pollutant rescale to
0–500 clamped on both sides, combined by maximum. -/
def calculate_epa_aqi (co no2 o3 : ℚ) : ℚ :=
  let co_aqi := min 500 (max 0 (co / 20 * 500))
  let no2_aqi := min 500 (max 0 (no2 / 400 * 500))
  let o3_aqi := min 500 (max 0 (o3 / 3000 * 500))
  max co_aqi (max no2_aqi o3_aqi)

/-- `calculate_ground_truth`: per-pollutant rescale to 0–500 (capped above
only), fixed 0.4/0.3/0.3 weighted combination, final cap at 500. -/
def calculate_ground_truth (co no2 o3 : ℚ) : ℚ :=
  let co_normalized := min 500 (co / 20 * 500)
  let no2_normalized := min 500 (no2 / 400 * 500)
  let o3_normalized := min 500 (o3 / 3000 * 500)
  min 500 (0.4 * co_normalized + 0.3 * no2_normalized + 0.3 * o3_normalized)

/-- Ground truth as the specification words it: normalize each raw
pollutant field as `min(500, co/20*500)`, `min(500, no2/400*500)`,
`min(500, o3/3000*500)`, combine with the fixed weights 0.4, 0.3, 0.3,
and cap the final result at 500.  Written from the claim's wording, to be
compared against `calculate_ground_truth`. -/
def ground_truth_spec (co no2 o3 : ℚ) : ℚ :=
  min 500
    (0.4 * min 500 (co / 20 * 500) + 0.3 * min 500 (no2 / 400 * 500) +
      0.3 * min 500 (o3 / 3000 * 500))

/-- One sample row of the comparison batch: the numeric fields
`compare_methods` reads from the dataset. -/
structure Row where
  CO : ℚ
  NO2 : ℚ
  O3_Sensor : ℚ
  Temperature : ℚ
  Humidity : ℚ
deriving DecidableEq

/-- Per-method metric block (`mae`, `rmse`, `accuracy`, `f1_score`,
`satisfaction`). -/
structure MethodMetrics where
  mae : ℚ
  rmse : ℚ
  accuracy : ℚ
  f1_score : ℚ
  satisfaction : ℚ
deriving DecidableEq

/-- Metrics dict with a `fuzzy` and a `crisp` block. -/
structure Metrics where
  fuzzy : MethodMetrics
  crisp : MethodMetrics
deriving DecidableEq

/-- `get_default_metrics`: the hard-coded metrics returned for error cases
and for small batches. -/
def get_default_metrics : Metrics :=
  { fuzzy := { mae := 25.0, rmse := 35.0, accuracy := 0.75, f1_score := 0.73,
               satisfaction := 0.80 }
    crisp := { mae := 40.0, rmse := 50.0, accuracy := 0.60, f1_score := 0.58,
               satisfaction := 0.65 } }

/-- Prediction series of one comparison run. -/
structure Predictions where
  fuzzy : List ℚ
  crisp : List ℚ
  ground_truth : List ℚ
deriving DecidableEq

/-- Result dict of `compare_methods`.  The error dict (outer `except`
branch) has no `sample_size` key, modelled as `none`. -/
structure CompareResult where
  success : Bool
  metrics : Metrics
  predictions : Predictions
  sample_size : Option Nat
deriving DecidableEq

/-- Outcome of `calculate_enhanced_metrics` on the three prediction
series: the source computes it with numpy and sklearn (`f1_score`), which
can raise; `none` models a raised exception, caught by the outer `try` of
`compare_methods`. -/
def EnhFn : Type := List ℚ → List ℚ → List ℚ → Option Metrics

/-- Body of `compare_methods` after sampling: for each sampled row collect
the fuzzy prediction (`comprehensive_assess`'s `fuzzy_aqi`), the crisp
prediction (`calculate_epa_aqi`) and the ground truth
(`calculate_ground_truth`) — all three are total on numeric rows, so the
inner per-row `try/except continue` never skips; then compute enhanced
metrics only when more than 10 ground-truth values were collected, else
return `get_default_metrics`.  A raise inside the enhanced-metric
computation is caught by the outer `except`, which returns the error dict
with default metrics and empty prediction lists. -/
def compare_methods_on (oracle : Oracle) (enh : EnhFn) (rows : List Row) :
    CompareResult :=
  let fuzzy_predictions := rows.map (fun r =>
    (comprehensive_assess oracle r.CO r.NO2 r.O3_Sensor r.Temperature r.Humidity).fuzzy_aqi)
  let crisp_predictions := rows.map (fun r => calculate_epa_aqi r.CO r.NO2 r.O3_Sensor)
  let ground_truth := rows.map (fun r => calculate_ground_truth r.CO r.NO2 r.O3_Sensor)
  if 10 < ground_truth.length then
    match enh fuzzy_predictions crisp_predictions ground_truth with
    | some metrics =>
      { success := true
        metrics := metrics
        predictions := { fuzzy := fuzzy_predictions, crisp := crisp_predictions,
                         ground_truth := ground_truth }
        sample_size := some fuzzy_predictions.length }
    | none =>
      { success := false
        metrics := get_default_metrics
        predictions := { fuzzy := [], crisp := [], ground_truth := [] }
        sample_size := none }
  else
    { success := true
      metrics := get_default_metrics
      predictions := { fuzzy := fuzzy_predictions, crisp := crisp_predictions,
                       ground_truth := ground_truth }
      sample_size := some fuzzy_predictions.length }

/-- Sampling step of `compare_methods`: `self.data.sample(n=min(n, len))`
draws a random subset of `min n data.length` rows; modelled as a prefix of
that length — only the sample count matters for the properties proved
here. -/
def sampleRows (data : List Row) (n : Nat) : List Row :=
  data.take (min n data.length)

/-- `compare_methods(n_samples)`: sample, then run the comparison body. -/
def compare_methods (oracle : Oracle) (enh : EnhFn) (data : List Row)
    (n_samples : Nat) : CompareResult :=
  compare_methods_on oracle enh (sampleRows data n_samples)

/-- One sample's satisfaction test inside `calculate_enhanced_metrics`:
`np.abs(pred - gt) / gt <= 0.2`.  With `gt = 0` the IEEE quotient is `inf`
(or `nan` when the numerator is also 0) and the comparison evaluates to
False, modelled by the explicit zero case. -/
def sat_ok (pred gt : ℚ) : Bool :=
  if gt = 0 then false else decide (|pred - gt| / gt ≤ 0.2)

/-- Satisfaction rate of `calculate_enhanced_metrics` (applied to the
fuzzy series and to the crisp series alike): `np.mean(error <= 0.2)`, the
number of satisfied samples divided by the total number of samples. -/
def satisfaction_rate (pred gt : List ℚ) : ℚ :=
  (((pred.zip gt).filter (fun p => sat_ok p.1 p.2)).length : ℚ) /
    (((pred.zip gt).length : ℚ))

/-- Satisfaction rate as the specification describes it: a sample whose
ground truth is 0 is excluded from the computation altogether — it is
neither counted in the denominator nor as a failure.  Written from the
claim's wording, to be compared against `satisfaction_rate`. -/
def satisfaction_rate_spec (pred gt : List ℚ) : ℚ :=
  let pairs := (pred.zip gt).filter (fun p => decide (p.2 ≠ 0))
  (((pairs.filter (fun p => decide (|p.1 - p.2| / p.2 ≤ 0.2))).length : ℚ) /
    ((pairs.length : ℚ)))

/-- Confidence as the specification words it: the mean of the firing
strengths of exactly those rules whose firing strength is nonzero, with
the fixed low-certainty default when no rule fired.  Written from the
claim's wording, to be compared against `calculate_confidence`. -/
def confidence_spec (strengths : List ℚ) : ℚ :=
  let fired := strengths.filter (fun s => decide (s ≠ 0))
  if fired.length ≠ 0 then fired.sum / (fired.length : ℚ) else 0.8

/-- Triangular membership as computed by scikit-fuzzy's `fuzz.trimf`, the
external library function through which `init_fuzzy_variables` declares
the CO term `Very_Low = fuzz.trimf(co_universe, [0, 0, 2])` (standard
definition: 1 at the peak `b`, linear on `(a, b)` and `(b, c)`, 0
outside). -/
def skfuzzy_trimf (a b c x : ℚ) : ℚ :=
  if x = b then 1
  else if a < x ∧ x < b then (x - a) / (b - a)
  else if b < x ∧ x < c then (c - x) / (c - b)
  else 0

/-- Membership function declared for the CO term `Very_Low` in
`init_fuzzy_variables`. -/
def co_very_low_declared (x : ℚ) : ℚ := skfuzzy_trimf 0 0 2 x

/-- Sample points used by `get_membership_functions` for the CO curves:
`np.linspace(0, 20, 50)`. -/
def co_points : List ℚ := (List.range 50).map (fun i => 20 * i / 49)

/-- Per-point formula of the `Very_Low` visualization curve hard-coded in
`get_membership_functions`:
`float(max(0, 1 - abs(x - 1) / 1)) if x <= 2 else 0`. -/
def viz_co_very_low (x : ℚ) : ℚ :=
  if x ≤ 2 then max 0 (1 - |x - 1| / 1) else 0

/-- The `Very_Low` curve of `get_membership_functions` as a list over the
sampled CO universe. -/
def viz_co_very_low_curve : List ℚ := co_points.map viz_co_very_low

/-! ## Theorems -/

lemma sat_ok_eq (p g : ℚ) :
    sat_ok p g = (decide (g ≠ 0) && decide (|p - g| / g ≤ (0.2 : ℚ))) := by
  by_cases h : g = 0 <;> simp [sat_ok, h]

/-- C1 (counterexample): on the batch with fuzzy predictions `[10, 10]`
and ground truths `[10, 0]` the code's satisfaction rate is 1/2 — the
zero-ground-truth sample stays in the denominator and counts as a failure
— while the specified exclusion would give 1. -/
theorem satisfaction_rate_cex :
    satisfaction_rate [10, 10] [10, 0] ≠ satisfaction_rate_spec [10, 10] [10, 0] := by
  have h1 : satisfaction_rate [10, 10] [10, 0] = 1 / 2 := by
    norm_num [satisfaction_rate, sat_ok, List.zip_cons_cons, List.zip_nil_right,
      List.filter_cons, List.filter_nil]
  have h2 : satisfaction_rate_spec [10, 10] [10, 0] = 1 := by
    norm_num [satisfaction_rate_spec, List.zip_cons_cons, List.zip_nil_right,
      List.filter_cons, List.filter_nil]
  rw [h1, h2]
  norm_num

/-- C1 (amended): the satisfaction rate divides the number of satisfied
samples by the total sample count; a sample whose ground truth is 0 is
never satisfied (its IEEE relative error is inf or nan, which does not
compare ≤ 0.2) yet remains in the denominator, i.e. it is counted as a
failure rather than excluded — for both prediction series, which use the
same computation. -/
theorem satisfaction_rate_includes_zero_gt (pred gt : List ℚ) :
    satisfaction_rate pred gt =
      (((pred.zip gt).filter
          (fun p => decide (p.2 ≠ 0) && decide (|p.1 - p.2| / p.2 ≤ (0.2 : ℚ)))).length : ℚ) /
        (((pred.zip gt).length : ℚ)) := by
  unfold satisfaction_rate
  simp only [sat_ok_eq]

/-- C3 (counterexample): on the deployed ten-rule base, in a situation
where one rule fires at strength 1 and the other nine at strength 0, the
specified confidence (mean over the rules with nonzero strength) is 1,
but `calculate_confidence` returns 0.8: the mean over the collected
non-numeric accessor objects raises and the bare `except` yields the
constant default. -/
theorem calculate_confidence_cex :
    calculate_confidence system_rules ≠
      confidence_spec [1, 0, 0, 0, 0, 0, 0, 0, 0, 0] := by
  have h1 : calculate_confidence system_rules = 0.8 := rfl
  have h2 : confidence_spec [1, 0, 0, 0, 0, 0, 0, 0, 0, 0] = 1 := by
    norm_num [confidence_spec, List.filter_cons, List.filter_nil]
  rw [h1, h2]
  norm_num

/-- C3 (amended): the confidence reported with an assessment is the
constant fixed default 0.8, for every rule list and regardless of firing
strengths — the per-rule `membership_value` reads are non-numeric
per-simulation state objects, so the mean over them raises and the bare
`except` returns 0.8, while an empty collection returns 0.8 directly;
accordingly a comprehensive result carries confidence 0.8 whenever the
simulation succeeds, and no confidence key at all on the fallback path.
The confidence is never a mean of firing strengths. -/
theorem confidence_constant_default (rules : List Unit) (oracle : Oracle)
    (co no2 o3 temp humidity : ℚ) :
    calculate_confidence rules = 0.8 ∧
      ((comprehensive_assess oracle co no2 o3 temp humidity).confidence = some 0.8 ∨
        (comprehensive_assess oracle co no2 o3 temp humidity).confidence = none) := by
  constructor
  · unfold calculate_confidence
    cases rules <;> rfl
  · unfold comprehensive_assess
    rcases oracle co no2 o3 temp humidity with _ | v
    · right; rfl
    · left; rfl

/-- C8: `compare_methods` on a request for 0 samples returns a success
result with empty fuzzy, crisp and ground-truth prediction series and the
documented default metrics object — it does not raise. -/
theorem compare_methods_empty_batch (oracle : Oracle) (enh : EnhFn) (data : List Row) :
    compare_methods oracle enh data 0 =
      { success := true
        metrics := get_default_metrics
        predictions := { fuzzy := [], crisp := [], ground_truth := [] }
        sample_size := some 0 } := by
  unfold compare_methods sampleRows
  rw [min_eq_left (Nat.zero_le _)]
  rfl

/-- C9: the ground-truth reference value equals the specification's fixed
weighted combination `min 500 (0.4·min 500 (co/20·500) +
0.3·min 500 (no2/400·500) + 0.3·min 500 (o3/3000·500))` of the raw
pollutant fields alone (it takes no prediction as input), and is capped at
500. -/
theorem ground_truth_matches_spec (co no2 o3 : ℚ) :
    calculate_ground_truth co no2 o3 = ground_truth_spec co no2 o3 ∧
      calculate_ground_truth co no2 o3 ≤ 500 := by
  refine ⟨rfl, ?_⟩
  unfold calculate_ground_truth
  exact min_le_left _ _

lemma trimf_unit (x a b c : ℚ) : 0 ≤ trimf x a b c ∧ trimf x a b c ≤ 1 := by
  unfold trimf
  split_ifs with h1 h2 h3 h4
  · norm_num
  · obtain ⟨hax, hxb⟩ := h2
    constructor
    · apply div_nonneg <;> linarith
    · rw [div_le_one (by linarith)]
      linarith
  · norm_num
  · push_neg at h1 h2
    obtain ⟨hax, hxc⟩ := h1
    have hbx : b ≤ x := h2 hax
    constructor
    · apply div_nonneg <;> linarith
    · rw [div_le_one (by linarith)]
      linarith
  · norm_num

lemma trapmf_unit (x a b c d : ℚ) : 0 ≤ trapmf x a b c d ∧ trapmf x a b c d ≤ 1 := by
  unfold trapmf
  split_ifs with h1 h2 h3 h4 h5
  · norm_num
  · obtain ⟨hax, hxb⟩ := h2
    constructor
    · apply div_nonneg <;> linarith
    · rw [div_le_one (by linarith)]
      linarith
  · norm_num
  · norm_num
  · push_neg at h1 h2 h4
    obtain ⟨hax, hxd⟩ := h1
    have hbx : b ≤ x := h2 hax
    have hcx : c < x := h4 hbx
    constructor
    · apply div_nonneg <;> linarith
    · rw [div_le_one (by linarith)]
      linarith
  · norm_num

lemma trap_left_unit (x a b : ℚ) : 0 ≤ trap_left x a b ∧ trap_left x a b ≤ 1 := by
  unfold trap_left
  split_ifs with h1 h2 h3
  · norm_num
  · norm_num
  · push_neg at h1 h2
    constructor
    · apply div_nonneg <;> linarith
    · rw [div_le_one (by linarith)]
      linarith
  · norm_num

lemma ramp_right_unit (x a b : ℚ) : 0 ≤ ramp_right x a b ∧ ramp_right x a b ≤ 1 := by
  unfold ramp_right
  split_ifs with h1 h2 h3
  · norm_num
  · norm_num
  · push_neg at h1 h2
    constructor
    · apply div_nonneg <;> linarith
    · rw [div_le_one (by linarith)]
      linarith
  · norm_num

lemma trap_right_unit (x a b : ℚ) : 0 ≤ trap_right x a b ∧ trap_right x a b ≤ 1 := by
  unfold trap_right
  split_ifs with h1 h2 h3
  · norm_num
  · norm_num
  · push_neg at h1 h2
    constructor
    · apply div_nonneg <;> linarith
    · rw [div_le_one (by linarith)]
      linarith
  · norm_num

lemma o3_good_unit (x : ℚ) :
    0 ≤ (calculate_o3_membership x).Good ∧ (calculate_o3_membership x).Good ≤ 1 := by
  unfold calculate_o3_membership
  dsimp only
  split_ifs with h
  · constructor
    · exact le_max_left _ _
    · apply max_le (by norm_num)
      have h0 : (0 : ℚ) ≤ max 0 (min x 3000) := le_max_left _ _
      have h1 : (0 : ℚ) ≤ max 0 (min x 3000) / 1000 := by positivity
      linarith
  · norm_num

/-- C6: for every rational input, including out-of-range values (the
functions clamp to the universe bounds first), every term degree produced
by `calculate_co_membership`, `calculate_no2_membership` and
`calculate_o3_membership` lies in `[0, 1]`, and no evaluation fails. -/
theorem memberships_in_unit (x : ℚ) :
    (0 ≤ (calculate_co_membership x).Very_Low ∧ (calculate_co_membership x).Very_Low ≤ 1) ∧
    (0 ≤ (calculate_co_membership x).Low ∧ (calculate_co_membership x).Low ≤ 1) ∧
    (0 ≤ (calculate_co_membership x).Moderate ∧ (calculate_co_membership x).Moderate ≤ 1) ∧
    (0 ≤ (calculate_co_membership x).High ∧ (calculate_co_membership x).High ≤ 1) ∧
    (0 ≤ (calculate_co_membership x).Very_High ∧ (calculate_co_membership x).Very_High ≤ 1) ∧
    (0 ≤ (calculate_no2_membership x).Excellent ∧ (calculate_no2_membership x).Excellent ≤ 1) ∧
    (0 ≤ (calculate_no2_membership x).Good ∧ (calculate_no2_membership x).Good ≤ 1) ∧
    (0 ≤ (calculate_no2_membership x).Fair ∧ (calculate_no2_membership x).Fair ≤ 1) ∧
    (0 ≤ (calculate_no2_membership x).Poor ∧ (calculate_no2_membership x).Poor ≤ 1) ∧
    (0 ≤ (calculate_no2_membership x).Hazardous ∧ (calculate_no2_membership x).Hazardous ≤ 1) ∧
    (0 ≤ (calculate_o3_membership x).Good ∧ (calculate_o3_membership x).Good ≤ 1) ∧
    (0 ≤ (calculate_o3_membership x).Moderate ∧ (calculate_o3_membership x).Moderate ≤ 1) ∧
    (0 ≤ (calculate_o3_membership x).Unhealthy ∧ (calculate_o3_membership x).Unhealthy ≤ 1) ∧
    (0 ≤ (calculate_o3_membership x).Very_Unhealthy ∧ (calculate_o3_membership x).Very_Unhealthy ≤ 1) :=
  ⟨trimf_unit (max 0 (min x 20)) 0 0 2,
   trimf_unit (max 0 (min x 20)) 1 2.5 4,
   trimf_unit (max 0 (min x 20)) 3 5 7,
   trimf_unit (max 0 (min x 20)) 6 9 12,
   trapmf_unit (max 0 (min x 20)) 10 15 20 20,
   trap_left_unit (max 0 (min x 400)) 0 50,
   trimf_unit (max 0 (min x 400)) 50 100 150,
   trimf_unit (max 0 (min x 400)) 125 200 275,
   trimf_unit (max 0 (min x 400)) 225 300 375,
   ramp_right_unit (max 0 (min x 400)) 350 400,
   o3_good_unit x,
   trimf_unit (max 0 (min x 3000)) 1000 1500 2000,
   trimf_unit (max 0 (min x 3000)) 1750 2250 2750,
   trap_right_unit (max 0 (min x 3000)) 2500 3000⟩

/-- C5: for valid triangular parameters `a ≤ b ≤ c`, the code's `trimf`
satisfies the corner conditions `f a = 0`, `f b = 1`, `f c = 0` in the
non-degenerate case, is exactly the rising line on `[a, b]` and the
falling line on `[b, c]` (hence continuous and piecewise-linear), is 0
outside `[a, c]`, and in the degenerate cases `a = b` or `b = c` the
guarded slopes still yield a total one-sided ramp that returns the flat
value 0 at the collapsed boundary instead of failing on a zero
denominator. -/
theorem trimf_triangle (a b c : ℚ) (hab : a ≤ b) (hbc : b ≤ c) :
    ((a < b ∧ b < c) →
        trimf a a b c = 0 ∧ trimf b a b c = 1 ∧ trimf c a b c = 0 ∧
        (∀ x, a ≤ x → x ≤ b → trimf x a b c = (x - a) / (b - a)) ∧
        (∀ x, b ≤ x → x ≤ c → trimf x a b c = (c - x) / (c - b))) ∧
      (∀ x, x ≤ a ∨ c ≤ x → trimf x a b c = 0) ∧
      (a = b → trimf b a b c = 0 ∧
        ∀ x, a < x → x < c → trimf x a b c = (c - x) / (c - a)) ∧
      (b = c → trimf b a b c = 0 ∧
        ∀ x, a < x → x < b → trimf x a b c = (x - a) / (b - a)) := by
  refine ⟨?_, ?_, ?_, ?_⟩
  · rintro ⟨hab', hbc'⟩
    have h3 : c - b ≠ 0 := sub_ne_zero_of_ne hbc'.ne'
    have h3a : b - a ≠ 0 := sub_ne_zero_of_ne hab'.ne'
    refine ⟨?_, ?_, ?_, ?_, ?_⟩
    · unfold trimf
      rw [if_pos (Or.inl (le_refl a))]
    · unfold trimf
      have h1 : ¬(b ≤ a ∨ c ≤ b) := by rintro (h | h) <;> linarith
      have h2 : ¬(a < b ∧ b < b) := by rintro ⟨_, h⟩; exact absurd h (lt_irrefl b)
      rw [if_neg h1, if_neg h2, if_pos h3, div_self h3]
    · unfold trimf
      rw [if_pos (Or.inr (le_refl c))]
    · intro x hax hxb
      rcases lt_or_eq_of_le hxb with hxb' | rfl
      · rcases eq_or_lt_of_le hax with rfl | hax'
        · unfold trimf
          rw [if_pos (Or.inl (le_refl _)), sub_self, zero_div]
        · unfold trimf
          have h1 : ¬(x ≤ a ∨ c ≤ x) := by rintro (h | h) <;> linarith
          rw [if_neg h1, if_pos ⟨hax', hxb'⟩, if_pos h3a]
      · unfold trimf
        have h1 : ¬(x ≤ a ∨ c ≤ x) := by rintro (h | h) <;> linarith
        have h2 : ¬(a < x ∧ x < x) := by rintro ⟨_, h⟩; exact absurd h (lt_irrefl x)
        rw [if_neg h1, if_neg h2, if_pos h3]
        rw [div_self h3, div_self h3a]
    · intro x hbx hxc
      rcases lt_or_eq_of_le hxc with hxc' | rfl
      · unfold trimf
        have h1 : ¬(x ≤ a ∨ c ≤ x) := by rintro (h | h) <;> linarith
        have h2 : ¬(a < x ∧ x < b) := by rintro ⟨_, h⟩; linarith
        rw [if_neg h1, if_neg h2, if_pos h3]
      · unfold trimf
        rw [if_pos (Or.inr (le_refl x)), sub_self, zero_div]
  · intro x hx
    unfold trimf
    rw [if_pos hx]
  · rintro rfl
    constructor
    · unfold trimf
      rw [if_pos (Or.inl (le_refl a))]
    · intro x hax hxc
      unfold trimf
      have h1 : ¬(x ≤ a ∨ c ≤ x) := by rintro (h | h) <;> linarith
      have h2 : ¬(a < x ∧ x < a) := by rintro ⟨h, h'⟩; linarith
      have h3 : c - a ≠ 0 := sub_ne_zero_of_ne (lt_trans hax hxc).ne'
      rw [if_neg h1, if_neg h2, if_pos h3]
  · rintro rfl
    constructor
    · unfold trimf
      rw [if_pos (Or.inr (le_refl b))]
    · intro x hax hxb
      unfold trimf
      have h1 : ¬(x ≤ a ∨ b ≤ x) := by rintro (h | h) <;> linarith
      have h3 : b - a ≠ 0 := sub_ne_zero_of_ne (lt_trans hax hxb).ne'
      rw [if_neg h1, if_pos ⟨hax, hxb⟩, if_pos h3]

/-- Witness for `trimf_triangle` at the CO `Moderate` parameters
`(3, 5, 7)`: the peak value is 1. -/
theorem trimf_triangle_witness : trimf 5 3 5 7 = 1 :=
  (((trimf_triangle 3 5 7 (by norm_num) (by norm_num)).1
    ⟨by norm_num, by norm_num⟩).2).1

/-- C7: on well-typed numeric input the assessment and comparison
operations are total and absorb internal errors: `comprehensive_assess`
reports success for every outcome of the fuzzy simulation (falling back to
`simple_assess` when it raises), `simple_assess` always reports success,
and `compare_methods_on` always returns a structured result — either a
success result whose sample size matches the batch, or (only when the
enhanced-metric computation raises) the error result carrying the default
metrics and empty prediction lists. -/
theorem assess_and_compare_total (oracle : Oracle) (enh : EnhFn)
    (co no2 o3 temp humidity : ℚ) (rows : List Row) :
    (comprehensive_assess oracle co no2 o3 temp humidity).success = true ∧
      (simple_assess co no2 o3).success = true ∧
      ((compare_methods_on oracle enh rows).success = true ∧
          (compare_methods_on oracle enh rows).sample_size = some rows.length ∨
        (compare_methods_on oracle enh rows).success = false ∧
          (compare_methods_on oracle enh rows).metrics = get_default_metrics ∧
          (compare_methods_on oracle enh rows).predictions =
            { fuzzy := [], crisp := [], ground_truth := [] }) := by
  refine ⟨?_, rfl, ?_⟩
  · unfold comprehensive_assess
    rcases oracle co no2 o3 temp humidity with _ | v <;> rfl
  · unfold compare_methods_on
    dsimp only
    split
    · split
      · left
        exact ⟨rfl, by simp [List.length_map]⟩
      · right
        exact ⟨rfl, rfl, rfl⟩
    · left
      exact ⟨rfl, by simp [List.length_map]⟩

/-- C10: whenever at most 10 samples yield prediction triples, the
comparison does not derive metrics from the predictions at all: it
returns the hard-coded default metrics (fuzzy mae 25, rmse 35, accuracy
0.75, f1 0.73, satisfaction 0.80; crisp mae 40, rmse 50, accuracy 0.60,
f1 0.58, satisfaction 0.65) while still reporting success and the
collected prediction series. -/
theorem compare_methods_small_batch_defaults (oracle : Oracle) (enh : EnhFn)
    (rows : List Row) (h : rows.length ≤ 10) :
    compare_methods_on oracle enh rows =
      { success := true
        metrics := { fuzzy := { mae := 25.0, rmse := 35.0, accuracy := 0.75,
                                f1_score := 0.73, satisfaction := 0.80 }
                     crisp := { mae := 40.0, rmse := 50.0, accuracy := 0.60,
                                f1_score := 0.58, satisfaction := 0.65 } }
        predictions :=
          { fuzzy := rows.map (fun r =>
              (comprehensive_assess oracle r.CO r.NO2 r.O3_Sensor r.Temperature r.Humidity).fuzzy_aqi)
            crisp := rows.map (fun r => calculate_epa_aqi r.CO r.NO2 r.O3_Sensor)
            ground_truth := rows.map (fun r => calculate_ground_truth r.CO r.NO2 r.O3_Sensor) }
        sample_size := some rows.length } := by
  unfold compare_methods_on
  dsimp only
  have hlen : ¬ 10 < (rows.map (fun r => calculate_ground_truth r.CO r.NO2 r.O3_Sensor)).length := by
    rw [List.length_map]
    exact Nat.not_lt.mpr h
  rw [if_neg hlen]
  simp [List.length_map, get_default_metrics]

/-- Witness for `compare_methods_small_batch_defaults` on a one-row batch
with a succeeding simulation. -/
theorem compare_methods_small_batch_defaults_witness :
    compare_methods_on (fun _ _ _ _ _ => some 40) (fun _ _ _ => none)
        [{ CO := 1, NO2 := 30, O3_Sensor := 200, Temperature := 20, Humidity := 50 }] =
      { success := true
        metrics := get_default_metrics
        predictions := { fuzzy := [40], crisp := [75 / 2], ground_truth := [125 / 4] }
        sample_size := some 1 } := by
  have h := compare_methods_small_batch_defaults (fun _ _ _ _ _ => some 40)
    (fun _ _ _ => none)
    [{ CO := 1, NO2 := 30, O3_Sensor := 200, Temperature := 20, Humidity := 50 }]
    (by norm_num)
  rw [h]
  norm_num [comprehensive_assess, calculate_epa_aqi, calculate_ground_truth,
    get_default_metrics, min_def, max_def]

/-- C4 (counterexample): 0 is the first sampled CO universe point of
`get_membership_functions`, and there the hard-coded `Very_Low`
visualization curve gives degree 0 while the membership function declared
for CO `Very_Low` in `init_fuzzy_variables` (triangle 0, 0, 2) gives
degree 1. -/
theorem viz_curve_cex :
    co_points.head? = some 0 ∧ viz_co_very_low 0 ≠ co_very_low_declared 0 := by
  constructor
  · have h0 : co_points.head? = some (20 * ((0 : ℕ) : ℚ) / 49) := rfl
    rw [h0]
    norm_num
  · have h1 : viz_co_very_low 0 = 0 := by
      norm_num [viz_co_very_low]
    have h2 : co_very_low_declared 0 = 1 := by
      norm_num [co_very_low_declared, skfuzzy_trimf]
    rw [h1, h2]
    norm_num

/-- C4 (amended): the visualization curves of `get_membership_functions`
are hard-coded formulas of the sampled universe point alone rather than
being derived from the stored membership functions, and they need not
match the declared ones: for the embedded CO `Very_Low` curve, every
entry is the fixed per-point formula evaluated at the corresponding
sampled universe point, and at the first sampled point 0 the curve gives
degree 0 while the membership function declared in `init_fuzzy_variables`
gives degree 1. -/
theorem viz_curve_hardcoded_per_point :
    (∀ i : ℕ, viz_co_very_low_curve.get? i =
        Option.map viz_co_very_low (co_points.get? i)) ∧
      viz_co_very_low 0 = 0 ∧ co_very_low_declared 0 = 1 := by
  refine ⟨?_, by norm_num [viz_co_very_low], by norm_num [co_very_low_declared, skfuzzy_trimf]⟩
  intro i
  simp [viz_co_very_low_curve, List.getElem?_map]

end AirQuality
